import Mathlib

/-!
Verification of the weather-api decode-and-cache pipeline.

The METAR decoder (`parseMetar`), the humidity calculator
(`calculateHumidity`), the cache normalization (`normalizeEntry`) and the
two `GET` route handlers (`GET1` for the App Router route, `GET2` for the
duplicated legacy route) are embedded as pure Lean functions.  The JS
regular expressions are embedded as hand-written scanners that reproduce
the leftmost-match, greedy-with-backtracking semantics of the specific
patterns used by the source.  Strings are processed as `List Char`.
-/

namespace Weather

/-- ASCII whitespace as matched by the JS `\s` class and `String.trim`
(the source only ever feeds ASCII METAR text). -/
def jsSpace (c : Char) : Bool :=
  c == ' ' || c == '\t' || c == '\n' || c == '\r' || c == '\x0b' || c == '\x0c'

/-- JS `\w` word characters, used for `\b` word boundaries. -/
def isWordChar (c : Char) : Bool := c.isAlphanum || c == '_'

def isUpper (c : Char) : Bool := 'A' ≤ c && c ≤ 'Z'

def prevIsWord : Option Char → Bool
  | none => false
  | some c => isWordChar c

/-- A `\b` word boundary holds after a word character iff the next
character (if any) is not a word character. -/
def noWordAhead : List Char → Bool
  | [] => true
  | c :: _ => !(isWordChar c)

/-- `String.prototype.trim`. -/
def trimList (l : List Char) : List Char :=
  ((l.dropWhile jsSpace).reverse.dropWhile jsSpace).reverse

/-- Numeric value of a digit list (as produced by `parseInt` on an
all-digit string). -/
def digitsVal (l : List Char) : Nat :=
  l.foldl (fun a c => a * 10 + (c.toNat - 48)) 0

/-- Leftmost-match scan driver: try the anchored matcher at every
position from left to right, threading the preceding character for `\b`
tests.  Mirrors how a non-global JS regex `match` finds its match. -/
def scanL (try_ : Option Char → List Char → Option α) :
    Option Char → List Char → Option α
  | prev, [] => try_ prev []
  | prev, c :: rest =>
    match try_ prev (c :: rest) with
    | some r => some r
    | none => scanL try_ (some c) rest

/-- `matchAll` driver: like `scanL` but collects all matches, resuming
after the end of each match (JS `lastIndex` semantics; all patterns used
here consume at least one character).  `fuel` bounds the recursion and is
always called with at least the length of the list plus one. -/
def scanAllAux (try_ : Option Char → List Char → Option (α × Option Char × List Char)) :
    Nat → Option Char → List Char → List α
  | 0, _, _ => []
  | _, _, [] => []
  | fuel + 1, prev, c :: rest =>
    match try_ prev (c :: rest) with
    | some (a, lastC, r2) => a :: scanAllAux try_ fuel lastC r2
    | none => scanAllAux try_ fuel (some c) rest

/-- `^METAR\s+([A-Z]{4})`: anchored at the start of the (trimmed) text. -/
def stationOf (l : List Char) : Option String :=
  match l with
  | 'M' :: 'E' :: 'T' :: 'A' :: 'R' :: r0 :: rest =>
    if jsSpace r0 then
      match rest.dropWhile jsSpace with
      | a :: b :: c :: d :: _ =>
        if isUpper a && isUpper b && isUpper c && isUpper d then
          some (String.mk [a, b, c, d])
        else none
      | _ => none
    else none
  | _ => none

/-- `\b(\d{6}Z)\b` anchored at one position. -/
def tryTime (prev : Option Char) (l : List Char) : Option String :=
  if prevIsWord prev then none else
  match l with
  | d1 :: d2 :: d3 :: d4 :: d5 :: d6 :: z :: rest =>
    if d1.isDigit && d2.isDigit && d3.isDigit && d4.isDigit && d5.isDigit &&
        d6.isDigit && z == 'Z' && noWordAhead rest then
      some (String.mk [d1, d2, d3, d4, d5, d6, z])
    else none
  | _ => none

structure Wind where
  dir : String
  speedKt : Nat
  gustKt : Option Nat
deriving DecidableEq, Repr

/-- `KT\b` at the head of the list; returns the rest. -/
def tryKT : List Char → Option (List Char)
  | 'K' :: 'T' :: rest => if noWordAhead rest then some rest else none
  | _ => none

/-- `(G(\d{2,3}))?KT\b`: the optional gust group is tried first (greedy),
with a 3-digit gust preferred over a 2-digit one; on failure the group is
dropped and `KT\b` must match directly. -/
def windAfterSpeed : List Char → Option (Option Nat)
  | 'G' :: g1 :: g2 :: g3 :: rest =>
    if g1.isDigit && g2.isDigit && g3.isDigit then
      match tryKT rest with
      | some _ => some (some (digitsVal [g1, g2, g3]))
      | none =>
        match tryKT (g3 :: rest) with
        | some _ => some (some (digitsVal [g1, g2]))
        | none => none
    else if g1.isDigit && g2.isDigit then
      match tryKT (g3 :: rest) with
      | some _ => some (some (digitsVal [g1, g2]))
      | none => none
    else none
  | 'G' :: g1 :: g2 :: rest =>
    if g1.isDigit && g2.isDigit then
      match tryKT rest with
      | some _ => some (some (digitsVal [g1, g2]))
      | none => none
    else none
  | l =>
    match tryKT l with
    | some _ => some none
    | none => none

/-- `\b(\d{3}|VRB)(\d{2,3})(G(\d{2,3}))?KT\b` anchored at one position.
The speed is greedy: three digits are preferred, backtracking to two. -/
def tryWind (prev : Option Char) (l : List Char) : Option Wind :=
  if prevIsWord prev then none else
  match l with
  | a :: b :: c :: rest =>
    let dirOpt : Option String :=
      if a.isDigit && b.isDigit && c.isDigit then some (String.mk [a, b, c])
      else if a == 'V' && b == 'R' && c == 'B' then some "VRB"
      else none
    match dirOpt with
    | none => none
    | some dir =>
      match rest with
      | s1 :: s2 :: s3 :: rest2 =>
        if s1.isDigit && s2.isDigit then
          if s3.isDigit then
            match windAfterSpeed rest2 with
            | some g => some ⟨dir, digitsVal [s1, s2, s3], g⟩
            | none =>
              match windAfterSpeed (s3 :: rest2) with
              | some g => some ⟨dir, digitsVal [s1, s2], g⟩
              | none => none
          else
            match windAfterSpeed (s3 :: rest2) with
            | some g => some ⟨dir, digitsVal [s1, s2], g⟩
            | none => none
        else none
      | s1 :: s2 :: rest2 =>
        if s1.isDigit && s2.isDigit then
          match windAfterSpeed rest2 with
          | some g => some ⟨dir, digitsVal [s1, s2], g⟩
          | none => none
        else none
      | _ => none
  | _ => none

/-- `\b(CAVOK|9999|\d{4})\b` anchored at one position (the `9999`
alternative is subsumed by `\d{4}`, which yields the same token). -/
def tryVis (prev : Option Char) (l : List Char) : Option String :=
  if prevIsWord prev then none else
  match l with
  | 'C' :: 'A' :: 'V' :: 'O' :: 'K' :: rest =>
    if noWordAhead rest then some "CAVOK" else none
  | d1 :: d2 :: d3 :: d4 :: rest =>
    if d1.isDigit && d2.isDigit && d3.isDigit && d4.isDigit && noWordAhead rest then
      some (String.mk [d1, d2, d3, d4])
    else none
  | _ => none

/-- Visibility rendering: `9999`/`CAVOK` map to `">=10km"`, any other
four-digit code to `"<code> m"`. -/
def visValue (t : String) : String :=
  if t == "9999" || t == "CAVOK" then ">=10km" else t ++ " m"

structure Cloud where
  type : String
  heightFt : Nat
  modifier : Option String
deriving DecidableEq, Repr

/-- The cover-type alternation `(SKC|CLR|FEW|SCT|BKN|OVC)`. -/
def cloudType : List Char → Option (String × List Char)
  | 'S' :: 'K' :: 'C' :: r => some ("SKC", r)
  | 'C' :: 'L' :: 'R' :: r => some ("CLR", r)
  | 'F' :: 'E' :: 'W' :: r => some ("FEW", r)
  | 'S' :: 'C' :: 'T' :: r => some ("SCT", r)
  | 'B' :: 'K' :: 'N' :: r => some ("BKN", r)
  | 'O' :: 'V' :: 'C' :: r => some ("OVC", r)
  | _ => none

/-- `\b(SKC|CLR|FEW|SCT|BKN|OVC)(\d{3})([A-Z]{0,2})?\b` anchored at one
position; the modifier is greedy (two letters, then one, then zero) and
an empty modifier capture is surfaced as `none` (the source maps the
empty capture to `null` via `m[3] || null`).  Returns the match, the last
matched character and the remaining text for `matchAll` resumption. -/
def tryCloud (prev : Option Char) (l : List Char) :
    Option (Cloud × Option Char × List Char) :=
  if prevIsWord prev then none else
  match cloudType l with
  | none => none
  | some (ty, r) =>
    match r with
    | h1 :: h2 :: h3 :: r2 =>
      if h1.isDigit && h2.isDigit && h3.isDigit then
        let height := digitsVal [h1, h2, h3] * 100
        match r2 with
        | m1 :: m2 :: r3 =>
          if isUpper m1 && isUpper m2 && noWordAhead r3 then
            some (⟨ty, height, some (String.mk [m1, m2])⟩, some m2, r3)
          else if isUpper m1 && noWordAhead (m2 :: r3) then
            some (⟨ty, height, some (String.mk [m1])⟩, some m1, m2 :: r3)
          else if noWordAhead r2 then
            some (⟨ty, height, none⟩, some h3, r2)
          else none
        | [m1] =>
          if isUpper m1 then
            some (⟨ty, height, some (String.mk [m1])⟩, some m1, [])
          else if noWordAhead r2 then
            some (⟨ty, height, none⟩, some h3, r2)
          else none
        | [] => some (⟨ty, height, none⟩, some h3, [])
      else none
    | _ => none

/-- Second half `(M?\d{1,2})\b` of the temperature/dew-point group; the
leading `M` letter denotes a negative value (`parseInt` on the capture
with `M` replaced by `-`). -/
def tdSecond : List Char → Option Int
  | 'M' :: d1 :: d2 :: rest =>
    if d1.isDigit then
      if d2.isDigit && noWordAhead rest then some (-(digitsVal [d1, d2] : Int))
      else if noWordAhead (d2 :: rest) then some (-(digitsVal [d1] : Int))
      else none
    else none
  | ['M', d1] => if d1.isDigit then some (-(digitsVal [d1] : Int)) else none
  | d1 :: d2 :: rest =>
    if d1.isDigit then
      if d2.isDigit && noWordAhead rest then some (digitsVal [d1, d2] : Int)
      else if noWordAhead (d2 :: rest) then some (digitsVal [d1] : Int)
      else none
    else none
  | [d1] => if d1.isDigit then some (digitsVal [d1] : Int) else none
  | [] => none

/-- After the optional sign of the first group: `\d{1,2}` (greedy, two
digits preferred) followed by `/` and the second group. -/
def tdRest (neg : Bool) (l : List Char) : Option (Int × Int) :=
  let mkVal (ds : List Char) : Int :=
    if neg then -(digitsVal ds : Int) else (digitsVal ds : Int)
  match l with
  | d1 :: d2 :: rest =>
    if d1.isDigit then
      if d2.isDigit then
        match rest with
        | '/' :: rest2 => (tdSecond rest2).map fun b => (mkVal [d1, d2], b)
        | _ =>
          if d2 == '/' then (tdSecond rest).map fun b => (mkVal [d1], b)
          else none
      else if d2 == '/' then (tdSecond rest).map fun b => (mkVal [d1], b)
      else none
    else none
  | _ => none

/-- `\b(M?\d{1,2})\/(M?\d{1,2})\b` anchored at one position. -/
def tryTempDew (prev : Option Char) (l : List Char) : Option (Int × Int) :=
  if prevIsWord prev then none else
  match l with
  | 'M' :: rest => tdRest true rest
  | _ => tdRest false l

/-- `\bQ(\d{4})\b` anchored at one position; value via `parseInt`. -/
def tryQ (prev : Option Char) (l : List Char) : Option Nat :=
  if prevIsWord prev then none else
  match l with
  | 'Q' :: d1 :: d2 :: d3 :: d4 :: rest =>
    if d1.isDigit && d2.isDigit && d3.isDigit && d4.isDigit && noWordAhead rest then
      some (digitsVal [d1, d2, d3, d4])
    else none
  | _ => none

/-- `\bA(\d{4})\b` anchored at one position; the capture is kept as the
original four-digit string. -/
def tryA (prev : Option Char) (l : List Char) : Option String :=
  if prevIsWord prev then none else
  match l with
  | 'A' :: d1 :: d2 :: d3 :: d4 :: rest =>
    if d1.isDigit && d2.isDigit && d3.isDigit && d4.isDigit && noWordAhead rest then
      some (String.mk [d1, d2, d3, d4])
    else none
  | _ => none

/-- Present-weather descriptor alternatives `MI|PR|BC|DR|BL|SH|TS|FZ`
(pairwise-distinct two-letter literals, so ordered alternation equals
membership). -/
def wxDescriptors : List (Char × Char) :=
  [('M', 'I'), ('P', 'R'), ('B', 'C'), ('D', 'R'), ('B', 'L'), ('S', 'H'),
   ('T', 'S'), ('F', 'Z')]

/-- Present-weather phenomenon alternatives
`DZ|RA|SN|SG|IC|PL|GR|GS|UP|BR|FG|SS|DS|SQ|PO`. -/
def wxPhenomena : List (Char × Char) :=
  [('D', 'Z'), ('R', 'A'), ('S', 'N'), ('S', 'G'), ('I', 'C'), ('P', 'L'),
   ('G', 'R'), ('G', 'S'), ('U', 'P'), ('B', 'R'), ('F', 'G'), ('S', 'S'),
   ('D', 'S'), ('S', 'Q'), ('P', 'O')]

/-- `(MI|…|FZ)?(DZ|…|PO)`: optional descriptor (the descriptor and
phenomenon literal sets are disjoint, so if the descriptor matched but no
phenomenon follows, the empty-descriptor fallback cannot succeed
either). -/
def wxTail (l : List Char) : Option (List Char × List Char) :=
  match l with
  | a :: b :: r =>
    if wxDescriptors.contains (a, b) then
      match r with
      | c :: d :: r2 =>
        if wxPhenomena.contains (c, d) then some ([a, b, c, d], r2) else none
      | _ => none
    else if wxPhenomena.contains (a, b) then some ([a, b], r)
    else none
  | _ => none

/-- `(-|\+|VC)?` then `wxTail`, with the empty-prefix fallback tried when
the prefixed attempt fails. -/
def wxCore (l : List Char) : Option (List Char × List Char) :=
  match l with
  | '-' :: r =>
    match wxTail r with
    | some (m, rest) => some ('-' :: m, rest)
    | none => wxTail l
  | '+' :: r =>
    match wxTail r with
    | some (m, rest) => some ('+' :: m, rest)
    | none => wxTail l
  | 'V' :: 'C' :: r =>
    match wxTail r with
    | some (m, rest) => some ('V' :: 'C' :: m, rest)
    | none => wxTail l
  | _ => wxTail l

/-- One attempt of the present-weather pattern
`(?:\s|^)(?:(-|\+|VC)?(?:(MI|…|FZ)?(?:DZ|…|PO)))`: the `\s` alternative
consumes a whitespace character, the `^` alternative applies only at
position zero (`prev = none`).  The source trims the matched substring,
which exactly strips the consumed whitespace, so the trimmed text is
returned directly. -/
def tryWx (prev : Option Char) (l : List Char) :
    Option (String × Option Char × List Char) :=
  match l with
  | c :: rest =>
    if jsSpace c then
      match wxCore rest with
      | some (m, r2) => some (String.mk m, m.getLast?, r2)
      | none => none
    else if prev == none then
      match wxCore l with
      | some (m, r2) => some (String.mk m, m.getLast?, r2)
      | none => none
    else none
  | [] => none

/-- The decoded observation shape produced by `parseMetar`.  Every field
is optional: a missing grammar token yields `none`, and the empty input
yields the all-`none` record (the source returns the empty object).  The
two mutually-exclusive pressure keys are the two fields
`qnh_hpa`/`alt_inhg`. -/
structure Parsed where
  raw : Option String := none
  station : Option String := none
  obsTime : Option String := none
  wind : Option Wind := none
  visibility : Option String := none
  clouds : Option (List Cloud) := none
  weather : Option (List String) := none
  temperatureC : Option Int := none
  dewPointC : Option Int := none
  qnh_hpa : Option Nat := none
  alt_inhg : Option String := none
deriving DecidableEq, Repr

/-- The METAR decoder `parseMetar` of the source: trim, return the empty
record on empty input, otherwise extract every field independently with
its own regular expression. -/
def parseMetar (s : String) : Parsed :=
  let t := trimList s.toList
  if t = [] then {} else
  { raw := some (String.mk t)
    station := stationOf t
    obsTime := scanL tryTime none t
    wind := scanL tryWind none t
    visibility := (scanL tryVis none t).map visValue
    clouds := some (scanAllAux tryCloud (t.length + 1) none t)
    weather :=
      let w := scanAllAux tryWx (t.length + 1) none t
      if w = [] then none else some w
    temperatureC := (scanL tryTempDew none t).map Prod.fst
    dewPointC := (scanL tryTempDew none t).map Prod.snd
    qnh_hpa := scanL tryQ none t
    alt_inhg := if (scanL tryQ none t).isSome then none else scanL tryA none t }

/-- The humidity calculator `calculateHumidity` of the source, with JS
numbers modelled as real numbers: `null` unless both inputs are numeric,
otherwise the Magnus-Tetens saturation-vapor-pressure ratio times 100,
rounded to the nearest integer. -/
noncomputable def calculateHumidity (temp dewPoint : Option ℝ) : Option ℤ :=
  match temp, dewPoint with
  | some t, some d =>
    some (round ((100 : ℝ) *
      (Real.exp ((17.625 * d) / (243.04 + d)) / Real.exp ((17.625 * t) / (243.04 + t)))))
  | _, _ => none

/-- `calculateHumidity` on the integer temperatures produced by the
decoder (the only way the route handlers ever call it). -/
noncomputable def humWire (t d : Int) : Int :=
  round ((100 : ℝ) *
    (Real.exp ((17.625 * (d : ℝ)) / (243.04 + (d : ℝ))) /
      Real.exp ((17.625 * (t : ℝ)) / (243.04 + (t : ℝ)))))

/-- The cache entry / response body shape: the decoded fields spread from
`parseMetar` plus the route-added `metar`, `temperature`, `dewPoint`,
`humidity` and `updatedAt` keys (and `obsTimeLocal`, produced only by the
legacy-route parser).  Absent JSON keys and `null` values are both
`none`. -/
structure Entry where
  metar : Option String := none
  raw : Option String := none
  station : Option String := none
  obsTime : Option String := none
  obsTimeLocal : Option String := none
  wind : Option Wind := none
  visibility : Option String := none
  clouds : Option (List Cloud) := none
  weather : Option (List String) := none
  temperatureC : Option Int := none
  dewPointC : Option Int := none
  qnh_hpa : Option Nat := none
  alt_inhg : Option String := none
  temperature : Option Int := none
  dewPoint : Option Int := none
  humidity : Option Int := none
  updatedAt : Option String := none
deriving DecidableEq, Repr

/-- The module-scope mutable cache: `cached`, `cachedMetar`, `cachedAt`. -/
structure CacheState where
  cached : Option Entry
  cachedMetar : Option String
  cachedAt : Int
deriving DecidableEq, Repr

/-- `CACHE_MIN_TTL_MS = 30 * 60 * 1000`. -/
def CACHE_MIN_TTL_MS : Int := 30 * 60 * 1000

/-- The route's possible JSON responses: 200 with the `cached` flag and
the entry body, 502 `{error, status}`, 422 `{error, metar}` (the raw
text is carried in the error), and 500 `{error, message}`. -/
inductive Resp where
  | ok (cachedFlag : Bool) (body : Entry)
  | upstreamError (status : Int)
  | malformed (metar : String)
  | internal
deriving DecidableEq, Repr

/-- The `cached` flag of a 200 response, if the response is a 200. -/
def Resp.cachedFlag? : Resp → Option Bool
  | .ok b _ => some b
  | _ => none

/-- Outcome of the upstream `fetch`: a thrown transport error, a
non-`ok` status, or a successful body. -/
inductive Upstream where
  | fail
  | notOk (status : Int)
  | ok (body : String)
deriving DecidableEq, Repr

/-- Outcome of one `saveCacheToFile` call. -/
inductive SaveResult where
  | skipped
  | written
  | failedLogged
deriving DecidableEq, Repr

/-- `saveCacheToFile`: a deliberate no-op when the `VERCEL=1` environment
flag is set, otherwise a disk write whose failure is caught and logged.
It never throws, so it is total; `writeOk` models whether the underlying
write would succeed. -/
def saveCacheToFile (vercel writeOk : Bool) : SaveResult :=
  if vercel then .skipped else if writeOk then .written else .failedLogged

/-- Result of one handler invocation: the response, the new cache state,
whether an upstream fetch was performed, and the outcomes of the
`saveCacheToFile` calls made along the way. -/
structure GetOut where
  resp : Resp
  state : CacheState
  fetched : Bool
  saves : List SaveResult
deriving DecidableEq, Repr

/-- JS `a || b` on string-valued fields: `a` is falsy when absent or
empty. -/
def jsOrStr : Option String → Option String → Option String
  | some s, b => if s = "" then b else some s
  | none, b => b

/-- JS `a || b` on object/array-valued fields: falsy only when absent. -/
def jsOr (a b : Option α) : Option α :=
  match a with
  | some x => some x
  | none => b

/-- JS `a || b` on the numeric `qnh_hpa` field: `0` is falsy. -/
def jsOrNat : Option Nat → Option Nat → Option Nat
  | some n, b => if n = 0 then b else some n
  | none, b => b

/-- `if (a == null && b != null) a = b`: fill only when absent (used for
`temperature`/`dewPoint`, which are null-checked, not truthiness-checked). -/
def fillNull (a b : Option Int) : Option Int :=
  match a with
  | none => b
  | some v => some v

/-- `String.prototype.indexOf`: index of the first occurrence of `pat`. -/
def indexOfSub (pat : List Char) : List Char → Option Nat
  | [] => if pat.isPrefixOf ([] : List Char) then some 0 else none
  | c :: rest =>
    if pat.isPrefixOf (c :: rest) then some 0
    else (indexOfSub pat rest).map (· + 1)

/-- The normalize-on-read substring extraction: slice from the first
occurrence of `"METAR"` if present, else the whole string. -/
def extractMetar (m : String) : String :=
  match indexOfSub "METAR".toList m.toList with
  | some i => String.mk (m.toList.drop i)
  | none => m

/-- Whether `cached.metar` is truthy (the guard of the normalize-on-read
block and of its persistence call). -/
def entryMetarTruthy (e : Entry) : Bool :=
  match e.metar with
  | some m => m ≠ ""
  | none => false

/-- Normalize-on-read: re-decode the stored raw report and back-fill the
entry's fields via the JS `||` / `== null` merges of the source, in
source order (the humidity recompute sees the possibly back-filled
temperature and dew point).  `hum` is the humidity function (the route
uses `humWire`; it is a parameter so that the cache logic stays
executable). -/
def normalizeEntry (hum : Int → Int → Int) (e : Entry) : Entry :=
  match e.metar with
  | none => e
  | some m =>
    if m = "" then e else
    let rawMetar := extractMetar m
    let p := parseMetar rawMetar
    { e with
      raw := jsOrStr (jsOrStr e.raw p.raw) (some rawMetar)
      station := jsOrStr e.station p.station
      obsTime := jsOrStr e.obsTime p.obsTime
      wind := jsOr e.wind p.wind
      visibility := jsOrStr e.visibility p.visibility
      clouds := jsOr e.clouds p.clouds
      weather := jsOr e.weather p.weather
      temperature := fillNull e.temperature p.temperatureC
      dewPoint := fillNull e.dewPoint p.dewPointC
      qnh_hpa :=
        match p.qnh_hpa with
        | some q => if q ≠ 0 then jsOrNat e.qnh_hpa (some q) else e.qnh_hpa
        | none => e.qnh_hpa
      alt_inhg :=
        match p.alt_inhg with
        | some a => if a ≠ "" then jsOrStr e.alt_inhg (some a) else e.alt_inhg
        | none => e.alt_inhg
      humidity :=
        match e.humidity, fillNull e.temperature p.temperatureC,
            fillNull e.dewPoint p.dewPointC with
        | none, some t, some d => some (hum t d)
        | h, _, _ => h }

/-- `data.split("\n")[0] || ""`. -/
def firstLine (s : String) : String :=
  String.mk (s.toList.takeWhile (· ≠ '\n'))

/-- The `!parsed.temperatureC` truthiness test of the 422 guard: JS
falsiness holds for a missing value and for the number `0` (including
the `-0` produced by an `M00` group). -/
def tempFalsy : Option Int → Prop
  | none => True
  | some v => v = 0

instance : DecidablePred tempFalsy := fun t =>
  match t with
  | none => isTrue trivial
  | some v => inferInstanceAs (Decidable (v = 0))

/-- The `result` object built by the App Router route after a successful
decode: the parsed fields spread plus `metar`, `temperature`, `dewPoint`,
`humidity` and `updatedAt` (`ts` is the formatted current local time,
supplied by the environment clock). -/
def mkResult1 (hum : Int → Int → Int) (metar : String) (p : Parsed) (ts : String) :
    Entry :=
  { metar := some metar
    raw := p.raw
    station := p.station
    obsTime := p.obsTime
    obsTimeLocal := none
    wind := p.wind
    visibility := p.visibility
    clouds := p.clouds
    weather := p.weather
    temperatureC := p.temperatureC
    dewPointC := p.dewPointC
    qnh_hpa := p.qnh_hpa
    alt_inhg := p.alt_inhg
    temperature := p.temperatureC
    dewPoint := p.dewPointC
    humidity :=
      match p.temperatureC, p.dewPointC with
      | some t, some d => some (hum t d)
      | _, _ => none
    updatedAt := some ts }

/-- The `result` object of the legacy route: identical except that its
parser also emits `obsTimeLocal` (a clock-and-locale-dependent formatting
of the observation time, supplied as the environment function `fol`). -/
def mkResult2 (hum : Int → Int → Int) (fol : Option String → Option String)
    (metar : String) (p : Parsed) (ts : String) : Entry :=
  { mkResult1 hum metar p ts with obsTimeLocal := fol p.obsTime }

/-- The fetch-and-update tail of the App Router `GET` (everything after
the cache-hit early return): 502 on upstream failure, 422 when
`!parsed.temperatureC`, otherwise the replace-vs-touch rule keyed on
`metar !== cachedMetar`. -/
def fetchPath1 (hum : Int → Int → Int) (now : Int) (ts : String)
    (vercel writeOk : Bool) (up : Upstream) (st : CacheState) : GetOut :=
  match up with
  | .fail => { resp := .internal, state := st, fetched := true, saves := [] }
  | .notOk s => { resp := .upstreamError s, state := st, fetched := true, saves := [] }
  | .ok body =>
    let metar := firstLine body
    let p := parseMetar metar
    if tempFalsy p.temperatureC then
      { resp := .malformed metar, state := st, fetched := true, saves := [] }
    else
      let result := mkResult1 hum metar p ts
      if metar ≠ "" ∧ some metar ≠ st.cachedMetar then
        { resp := .ok false result
          state := ⟨some result, some metar, now⟩
          fetched := true
          saves := [saveCacheToFile vercel writeOk] }
      else
        match st.cached with
        | some e =>
          { resp := .ok true e
            state := { st with cachedAt := now }
            fetched := true
            saves := [saveCacheToFile vercel writeOk] }
        | none =>
          { resp := .ok false result
            state := ⟨some result, some metar, now⟩
            fetched := true
            saves := [saveCacheToFile vercel writeOk] }

/-- The App Router `GET` handler: serve the cache (normalized on read,
with the normalization persisted) when not forced and within the TTL,
otherwise run the fetch path.  `now` is `Date.now()`, `ts` the formatted
local time, `vercel`/`writeOk` the persistence environment. -/
def GET1 (hum : Int → Int → Int) (force : Bool) (now : Int) (ts : String)
    (vercel writeOk : Bool) (up : Upstream) (st : CacheState) : GetOut :=
  match force, st.cached with
  | false, some e =>
    if now - st.cachedAt < CACHE_MIN_TTL_MS then
      let e' := normalizeEntry hum e
      { resp := .ok true e'
        state := { st with cached := some e' }
        fetched := false
        saves := if entryMetarTruthy e then [saveCacheToFile vercel writeOk] else [] }
    else fetchPath1 hum now ts vercel writeOk up st
  | _, _ => fetchPath1 hum now ts vercel writeOk up st

/-- The fetch-and-update tail of the legacy duplicated `GET`: same guards,
but no change detection — the cache entry is unconditionally replaced and
the response is always tagged `cached: false`. -/
def fetchPath2 (hum : Int → Int → Int) (fol : Option String → Option String)
    (now : Int) (ts : String) (vercel writeOk : Bool) (up : Upstream)
    (st : CacheState) : GetOut :=
  match up with
  | .fail => { resp := .internal, state := st, fetched := true, saves := [] }
  | .notOk s => { resp := .upstreamError s, state := st, fetched := true, saves := [] }
  | .ok body =>
    let metar := firstLine body
    let p := parseMetar metar
    if tempFalsy p.temperatureC then
      { resp := .malformed metar, state := st, fetched := true, saves := [] }
    else
      let result := mkResult2 hum fol metar p ts
      { resp := .ok false result
        state := ⟨some result, some metar, now⟩
        fetched := true
        saves := [saveCacheToFile vercel writeOk] }

/-- The legacy duplicated `GET` handler: cache hit served as-is (no
normalize-on-read), otherwise the unconditional-replace fetch path. -/
def GET2 (hum : Int → Int → Int) (fol : Option String → Option String)
    (force : Bool) (now : Int) (ts : String) (vercel writeOk : Bool)
    (up : Upstream) (st : CacheState) : GetOut :=
  match force, st.cached with
  | false, some e =>
    if now - st.cachedAt < CACHE_MIN_TTL_MS then
      { resp := .ok true e, state := st, fetched := false, saves := [] }
    else fetchPath2 hum fol now ts vercel writeOk up st
  | _, _ => fetchPath2 hum fol now ts vercel writeOk up st

/-! ### Helper lemmas -/

/-- Degree-3 Taylor sandwich for `Real.exp` on `[0, 1]`, from
`Real.exp_bound` at `n = 4`. -/
lemma exp_taylor4 (x : ℝ) (h0 : 0 ≤ x) (h1 : x ≤ 1) :
    1 + x + x ^ 2 / 2 + x ^ 3 / 6 - x ^ 4 * (5 / 96) ≤ Real.exp x ∧
      Real.exp x ≤ 1 + x + x ^ 2 / 2 + x ^ 3 / 6 + x ^ 4 * (5 / 96) := by
  have hax : |x| ≤ 1 := by rwa [abs_of_nonneg h0]
  have hb := @Real.exp_bound x hax 4 (by norm_num)
  have hs : ∑ m ∈ Finset.range 4, x ^ m / m.factorial =
      1 + x + x ^ 2 / 2 + x ^ 3 / 6 := by
    simp [Finset.sum_range_succ, Nat.factorial]
  rw [hs, abs_of_nonneg h0] at hb
  have hb' := abs_le.mp hb
  norm_num [Nat.factorial] at hb'
  constructor
  · nlinarith [hb'.1]
  · nlinarith [hb'.2]

/-- The humidity the source computes for 24 °C / 18 °C is exactly 69
(the Magnus-Tetens ratio is `exp (-16063425/43567576) ≈ 0.6916`). -/
lemma calcHumidity_24_18 : calculateHumidity (some 24) (some 18) = some 69 := by
  have hx : (17.625 * (18:ℝ)) / (243.04 + 18) - (17.625 * 24) / (243.04 + 24) =
      -(16063425 / 43567576 : ℝ) := by norm_num
  have hlo : (0.3687 : ℝ) ≤ 16063425 / 43567576 := by norm_num
  have hhi : (16063425 / 43567576 : ℝ) ≤ 0.36871 := by norm_num
  have t2 := exp_taylor4 0.36871 (by norm_num) (by norm_num)
  have t1 := exp_taylor4 0.3687 (by norm_num) (by norm_num)
  have hub : Real.exp (16063425 / 43567576 : ℝ) ≤ 1.44601 := by
    have := Real.exp_le_exp.mpr hhi
    nlinarith [t2.2]
  have hlb : (1.44406 : ℝ) ≤ Real.exp (16063425 / 43567576 : ℝ) := by
    have := Real.exp_le_exp.mpr hlo
    nlinarith [t1.1]
  have hpos : (0:ℝ) < Real.exp (16063425 / 43567576 : ℝ) := Real.exp_pos _
  have hinv : (0:ℝ) < (Real.exp (16063425 / 43567576 : ℝ))⁻¹ := inv_pos.mpr hpos
  have hone : Real.exp (16063425 / 43567576 : ℝ) *
      (Real.exp (16063425 / 43567576 : ℝ))⁻¹ = 1 := mul_inv_cancel₀ (ne_of_gt hpos)
  show some (round ((100 : ℝ) *
      (Real.exp ((17.625 * (18:ℝ)) / (243.04 + 18)) /
        Real.exp ((17.625 * (24:ℝ)) / (243.04 + 24))))) = some 69
  rw [← Real.exp_sub, hx, Real.exp_neg, Option.some_inj, round_eq, Int.floor_eq_iff]
  constructor
  · push_cast
    nlinarith [hone, hinv, hub]
  · push_cast
    nlinarith [hone, hinv, hlb]

lemma parseMetar_of_empty : parseMetar "" = {} := rfl

lemma metar_ne_empty_of_temp (m : String)
    (h : ¬ tempFalsy (parseMetar m).temperatureC) : m ≠ "" := by
  intro he
  subst he
  apply h
  show tempFalsy (parseMetar "").temperatureC
  exact trivial

/-- A forced or stale request runs the fetch path of the App Router
route. -/
lemma GET1_refresh (hum : Int → Int → Int) (force : Bool) (now : Int) (ts : String)
    (v w : Bool) (up : Upstream) (st : CacheState)
    (h : force = true ∨ CACHE_MIN_TTL_MS ≤ now - st.cachedAt) :
    GET1 hum force now ts v w up st = fetchPath1 hum now ts v w up st := by
  obtain ⟨c, cm, ca⟩ := st
  rcases h with h | h
  · subst h; rfl
  · cases force
    · cases c with
      | none => rfl
      | some e => simp [GET1, not_lt.mpr h]
    · rfl

/-- A forced or stale request runs the fetch path of the legacy route. -/
lemma GET2_refresh (hum : Int → Int → Int) (fol : Option String → Option String)
    (force : Bool) (now : Int) (ts : String)
    (v w : Bool) (up : Upstream) (st : CacheState)
    (h : force = true ∨ CACHE_MIN_TTL_MS ≤ now - st.cachedAt) :
    GET2 hum fol force now ts v w up st = fetchPath2 hum fol now ts v w up st := by
  obtain ⟨c, cm, ca⟩ := st
  rcases h with h | h
  · subst h; rfl
  · cases force
    · cases c with
      | none => rfl
      | some e => simp [GET2, not_lt.mpr h]
    · rfl

lemma fetchPath1_malformed (hum : Int → Int → Int) (now : Int) (ts : String)
    (v w : Bool) (body : String) (st : CacheState)
    (h : tempFalsy (parseMetar (firstLine body)).temperatureC) :
    fetchPath1 hum now ts v w (.ok body) st =
      ⟨.malformed (firstLine body), st, true, []⟩ := by
  simp [fetchPath1, if_pos h]

lemma fetchPath1_replace (hum : Int → Int → Int) (now : Int) (ts : String)
    (v w : Bool) (body : String) (st : CacheState)
    (ht : ¬ tempFalsy (parseMetar (firstLine body)).temperatureC)
    (hd : some (firstLine body) ≠ st.cachedMetar) :
    fetchPath1 hum now ts v w (.ok body) st =
      ⟨.ok false (mkResult1 hum (firstLine body) (parseMetar (firstLine body)) ts),
       ⟨some (mkResult1 hum (firstLine body) (parseMetar (firstLine body)) ts),
        some (firstLine body), now⟩, true, [saveCacheToFile v w]⟩ := by
  have hne := metar_ne_empty_of_temp _ ht
  simp [fetchPath1, if_neg ht, if_pos (show _ ∧ _ from ⟨hne, hd⟩)]

lemma fetchPath1_touch (hum : Int → Int → Int) (now : Int) (ts : String)
    (v w : Bool) (body : String) (st : CacheState) (e : Entry)
    (ht : ¬ tempFalsy (parseMetar (firstLine body)).temperatureC)
    (hs : st.cachedMetar = some (firstLine body)) (hc : st.cached = some e) :
    fetchPath1 hum now ts v w (.ok body) st =
      ⟨.ok true e, { st with cachedAt := now }, true, [saveCacheToFile v w]⟩ := by
  have hno : ¬ (firstLine body ≠ "" ∧ some (firstLine body) ≠ st.cachedMetar) := by
    rintro ⟨-, h2⟩
    exact h2 hs.symm
  simp [fetchPath1, if_neg ht, if_neg hno, hc]

lemma fetchPath2_replace (hum : Int → Int → Int) (fol : Option String → Option String)
    (now : Int) (ts : String) (v w : Bool) (body : String) (st : CacheState)
    (ht : ¬ tempFalsy (parseMetar (firstLine body)).temperatureC) :
    fetchPath2 hum fol now ts v w (.ok body) st =
      ⟨.ok false (mkResult2 hum fol (firstLine body) (parseMetar (firstLine body)) ts),
       ⟨some (mkResult2 hum fol (firstLine body) (parseMetar (firstLine body)) ts),
        some (firstLine body), now⟩, true, [saveCacheToFile v w]⟩ := by
  simp [fetchPath2, if_neg ht]

/-! ### Shared concrete fixtures -/

/-- The example raw line of the spec. -/
def exMetar : String := "METAR SBRP 201800Z 09008KT 9999 FEW020 24/18 Q1015"

/-- A well-formed report whose temperature group is `00/M02`
(temperature 0 °C). -/
def zeroTempMetar : String := "METAR SBRP 201800Z 09008KT 9999 FEW020 00/M02 Q1015"

/-- A report with no temperature/dew-point group at all. -/
def noTempMetar : String := "METAR SBRP 201800Z 09008KT 9999 FEW020 Q1015"

/-- The empty cache state. -/
def stEmpty : CacheState := ⟨none, none, 0⟩

/-- A small stored report used by the cache fixtures. -/
def m0 : String := "METAR SBRP 201800Z 24/18 Q1015"

/-- A different report from `m0` (changed time and temperatures). -/
def m1 : String := "METAR SBRP 211900Z 25/17 Q1013"

/-- A populated cache entry derived from `m0`. -/
def e0 : Entry :=
  { metar := some m0, raw := some m0, station := some "SBRP",
    obsTime := some "201800Z", temperatureC := some 24, dewPointC := some 18,
    qnh_hpa := some 1015, temperature := some 24, dewPoint := some 18,
    humidity := some 69, updatedAt := some "10:00" }

/-- A cache state holding `e0` for report `m0`, fetched at time 0. -/
def st0 : CacheState := ⟨some e0, some m0, 0⟩

/-- A concrete instantiation of the legacy parser's environment-dependent
`obsTimeLocal` formatter. -/
def fol0 : Option String → Option String := fun _ => none

lemma fetchPath1_fetched (hum : Int → Int → Int) (now : Int) (ts : String)
    (v w : Bool) (up : Upstream) (st : CacheState) :
    (fetchPath1 hum now ts v w up st).fetched = true := by
  obtain ⟨c, cm, ca⟩ := st
  cases up with
  | fail => rfl
  | notOk s => rfl
  | ok body =>
    cases c <;> simp only [fetchPath1] <;> split_ifs <;> rfl

lemma fetchPath2_fetched (hum : Int → Int → Int) (fol : Option String → Option String)
    (now : Int) (ts : String) (v w : Bool) (up : Upstream) (st : CacheState) :
    (fetchPath2 hum fol now ts v w up st).fetched = true := by
  cases up with
  | fail => rfl
  | notOk s => rfl
  | ok body => simp only [fetchPath2]; split_ifs <;> rfl

/-- The disk-write outcome can only influence the recorded save results,
never the response or the state (fetch path, App Router route). -/
lemma fetchPath1_eq_w (hum : Int → Int → Int) (now : Int) (ts : String)
    (v w w' : Bool) (up : Upstream) (st : CacheState) :
    fetchPath1 hum now ts v w up st =
      { fetchPath1 hum now ts v w' up st with
        saves := (fetchPath1 hum now ts v w up st).saves } := by
  obtain ⟨c, cm, ca⟩ := st
  cases up with
  | fail => rfl
  | notOk s => rfl
  | ok body =>
    cases c <;> simp only [fetchPath1] <;> split_ifs <;> rfl

lemma fetchPath2_eq_w (hum : Int → Int → Int) (fol : Option String → Option String)
    (now : Int) (ts : String) (v w w' : Bool) (up : Upstream) (st : CacheState) :
    fetchPath2 hum fol now ts v w up st =
      { fetchPath2 hum fol now ts v w' up st with
        saves := (fetchPath2 hum fol now ts v w up st).saves } := by
  cases up with
  | fail => rfl
  | notOk s => rfl
  | ok body => simp only [fetchPath2]; split_ifs <;> rfl

lemma GET1_eq_w (hum : Int → Int → Int) (f : Bool) (now : Int) (ts : String)
    (v w w' : Bool) (up : Upstream) (st : CacheState) :
    GET1 hum f now ts v w up st =
      { GET1 hum f now ts v w' up st with
        saves := (GET1 hum f now ts v w up st).saves } := by
  obtain ⟨c, cm, ca⟩ := st
  cases f
  · cases c with
    | none => exact fetchPath1_eq_w hum now ts v w w' up ⟨none, cm, ca⟩
    | some e =>
      by_cases h : now - ca < CACHE_MIN_TTL_MS
      · simp only [GET1, if_pos h]
      · simp only [GET1, if_neg h]
        exact fetchPath1_eq_w hum now ts v w w' up ⟨some e, cm, ca⟩
  · exact fetchPath1_eq_w hum now ts v w w' up ⟨c, cm, ca⟩

lemma GET2_eq_w (hum : Int → Int → Int) (fol : Option String → Option String)
    (f : Bool) (now : Int) (ts : String)
    (v w w' : Bool) (up : Upstream) (st : CacheState) :
    GET2 hum fol f now ts v w up st =
      { GET2 hum fol f now ts v w' up st with
        saves := (GET2 hum fol f now ts v w up st).saves } := by
  obtain ⟨c, cm, ca⟩ := st
  cases f
  · cases c with
    | none => exact fetchPath2_eq_w hum fol now ts v w w' up ⟨none, cm, ca⟩
    | some e =>
      by_cases h : now - ca < CACHE_MIN_TTL_MS
      · simp only [GET2, if_pos h]
      · simp only [GET2, if_neg h]
        exact fetchPath2_eq_w hum fol now ts v w w' up ⟨some e, cm, ca⟩
  · exact fetchPath2_eq_w hum fol now ts v w w' up ⟨c, cm, ca⟩

/-- C1: the code signals `MalformedReport` not only when the decoder
finds no temperature field but also when the decoded temperature is the
number 0, because of the JS truthiness test `!parsed.temperatureC`.  On
`zeroTempMetar` the decoder finds `temperatureC = 0`, yet both routes
return the 422 response (with the raw text and unchanged state); on
`noTempMetar` (temperature really missing) they do the same, as the claim
says. -/
theorem getObservation_rejects_zero_temperature :
    (parseMetar zeroTempMetar).temperatureC = some 0 ∧
    GET1 humWire true 0 "12:00" false true (.ok zeroTempMetar) stEmpty =
      ⟨.malformed zeroTempMetar, stEmpty, true, []⟩ ∧
    (GET2 humWire fol0 true 0 "12:00" false true (.ok zeroTempMetar) stEmpty) =
      ⟨.malformed zeroTempMetar, stEmpty, true, []⟩ ∧
    (parseMetar noTempMetar).temperatureC = none ∧
    GET1 humWire true 0 "12:00" false true (.ok noTempMetar) stEmpty =
      ⟨.malformed noTempMetar, stEmpty, true, []⟩ :=
  ⟨by decide, rfl, rfl, by decide, rfl⟩

/-- C5 counterexample: for the spec's example line the computed relative
humidity for 24 °C / 18 °C is exactly 69, not approximately 66. -/
theorem example_decode_humidity_cex :
    calculateHumidity (some 24) (some 18) = some 69 ∧
    calculateHumidity (some 24) (some 18) ≠ some 66 := by
  refine ⟨calcHumidity_24_18, ?_⟩
  rw [calcHumidity_24_18]
  decide

/-- C5 amended: decoding the example line yields exactly the claimed
station, wind, visibility, cloud layer, temperatures and pressure, and
the computed relative humidity is 69 (not 66). -/
theorem example_decode_fields :
    (parseMetar exMetar).station = some "SBRP" ∧
    (parseMetar exMetar).wind = some ⟨"090", 8, none⟩ ∧
    (parseMetar exMetar).visibility = some ">=10km" ∧
    (parseMetar exMetar).clouds = some [⟨"FEW", 2000, none⟩] ∧
    (parseMetar exMetar).temperatureC = some 24 ∧
    (parseMetar exMetar).dewPointC = some 18 ∧
    (parseMetar exMetar).qnh_hpa = some 1015 ∧
    (parseMetar exMetar).alt_inhg = none ∧
    calculateHumidity (some 24) (some 18) = some 69 :=
  ⟨by decide, by decide, by decide, by decide, by decide, by decide, by decide,
   by decide, calcHumidity_24_18⟩

/-- C6: `relativeHumidity(t, t) = 100` for every numeric temperature
(the Magnus-Tetens ratio is exactly 1), and the result is absent when
either input is absent. -/
theorem relativeHumidity_symmetry_and_absence :
    (∀ t : ℝ, calculateHumidity (some t) (some t) = some 100) ∧
    (∀ d : Option ℝ, calculateHumidity none d = none) ∧
    (∀ t : Option ℝ, calculateHumidity t none = none) := by
  refine ⟨fun t => ?_, fun d => rfl, fun t => ?_⟩
  · show some (round ((100:ℝ) *
        (Real.exp ((17.625 * t) / (243.04 + t)) /
          Real.exp ((17.625 * t) / (243.04 + t))))) = some 100
    rw [div_self (Real.exp_ne_zero _), mul_one]
    have h100 : ((100:ℤ):ℝ) = (100:ℝ) := by norm_num
    rw [← h100, round_intCast]
  · cases t <;> rfl


/-- C2 counterexample: a forced refresh through the legacy route whose
fetched report is byte-identical to the stored one still replaces the
entry and tags the response `cached: false` (its `updatedAt` becomes the
new time), contradicting the claim for this route. -/
theorem identical_report_tagged_uncached_cex :
    st0.cachedMetar = some (firstLine m0) ∧
    st0.cached = some e0 ∧
    e0.updatedAt = some "10:00" ∧
    (GET2 humWire fol0 true 1000 "12:00" false true (.ok m0) st0).resp.cachedFlag? =
      some false ∧
    ((GET2 humWire fol0 true 1000 "12:00" false true (.ok m0) st0).state.cached.map
      Entry.updatedAt) = some (some "12:00") :=
  ⟨rfl, rfl, rfl, rfl, rfl⟩

/-- C2 amended: on a refresh with a byte-identical report and an existing
entry, the App Router route leaves the stored entry unchanged, advances
only the fetch timestamp and answers `cached: true` with that entry —
but the legacy duplicated route unconditionally replaces the entry and
answers `cached: false`. -/
theorem identical_report_touch_vs_legacy_replace
    (hum : Int → Int → Int) (fol : Option String → Option String) (force : Bool)
    (now : Int) (ts : String) (v w : Bool) (body : String) (st : CacheState)
    (e : Entry)
    (href : force = true ∨ CACHE_MIN_TTL_MS ≤ now - st.cachedAt)
    (ht : ¬ tempFalsy (parseMetar (firstLine body)).temperatureC)
    (hs : st.cachedMetar = some (firstLine body))
    (hc : st.cached = some e) :
    GET1 hum force now ts v w (.ok body) st =
      ⟨.ok true e, { st with cachedAt := now }, true, [saveCacheToFile v w]⟩ ∧
    GET2 hum fol force now ts v w (.ok body) st =
      ⟨.ok false (mkResult2 hum fol (firstLine body) (parseMetar (firstLine body)) ts),
       ⟨some (mkResult2 hum fol (firstLine body) (parseMetar (firstLine body)) ts),
        some (firstLine body), now⟩, true, [saveCacheToFile v w]⟩ := by
  constructor
  · rw [GET1_refresh hum force now ts v w (.ok body) st href]
    exact fetchPath1_touch hum now ts v w body st e ht hs hc
  · rw [GET2_refresh hum fol force now ts v w (.ok body) st href]
    exact fetchPath2_replace hum fol now ts v w body st ht

theorem identical_report_touch_vs_legacy_replace_witness :
    (¬ tempFalsy (parseMetar (firstLine m0)).temperatureC) ∧
    st0.cachedMetar = some (firstLine m0) ∧ st0.cached = some e0 ∧
    GET1 humWire true 1000 "12:00" false true (.ok m0) st0 =
      ⟨.ok true e0, { st0 with cachedAt := 1000 }, true,
       [saveCacheToFile false true]⟩ :=
  ⟨by decide, rfl, rfl,
   (identical_report_touch_vs_legacy_replace humWire fol0 true 1000 "12:00" false
     true m0 st0 e0 (Or.inl rfl) (by decide) rfl rfl).1⟩

/-- C3: on a refresh whose first-line report differs from the stored one,
both routes fully replace the cache entry with the re-decoded result
(humidity and updated-at recomputed, timestamp reset), persist it, and
answer `cached: false`. -/
theorem changed_report_full_replace
    (hum : Int → Int → Int) (fol : Option String → Option String) (force : Bool)
    (now : Int) (ts : String) (v w : Bool) (body : String) (st : CacheState)
    (href : force = true ∨ CACHE_MIN_TTL_MS ≤ now - st.cachedAt)
    (ht : ¬ tempFalsy (parseMetar (firstLine body)).temperatureC)
    (hd : some (firstLine body) ≠ st.cachedMetar) :
    GET1 hum force now ts v w (.ok body) st =
      ⟨.ok false (mkResult1 hum (firstLine body) (parseMetar (firstLine body)) ts),
       ⟨some (mkResult1 hum (firstLine body) (parseMetar (firstLine body)) ts),
        some (firstLine body), now⟩, true, [saveCacheToFile v w]⟩ ∧
    GET2 hum fol force now ts v w (.ok body) st =
      ⟨.ok false (mkResult2 hum fol (firstLine body) (parseMetar (firstLine body)) ts),
       ⟨some (mkResult2 hum fol (firstLine body) (parseMetar (firstLine body)) ts),
        some (firstLine body), now⟩, true, [saveCacheToFile v w]⟩ := by
  constructor
  · rw [GET1_refresh hum force now ts v w (.ok body) st href]
    exact fetchPath1_replace hum now ts v w body st ht hd
  · rw [GET2_refresh hum fol force now ts v w (.ok body) st href]
    exact fetchPath2_replace hum fol now ts v w body st ht

theorem changed_report_full_replace_witness :
    (¬ tempFalsy (parseMetar (firstLine m1)).temperatureC) ∧
    (some (firstLine m1) ≠ st0.cachedMetar) ∧
    GET1 humWire true 1000 "12:00" false true (.ok m1) st0 =
      ⟨.ok false (mkResult1 humWire (firstLine m1) (parseMetar (firstLine m1)) "12:00"),
       ⟨some (mkResult1 humWire (firstLine m1) (parseMetar (firstLine m1)) "12:00"),
        some (firstLine m1), 1000⟩, true, [saveCacheToFile false true]⟩ :=
  ⟨by decide, by decide,
   (changed_report_full_replace humWire fol0 true 1000 "12:00" false true m1 st0
     (Or.inl rfl) (by decide) (by decide)).1⟩

/-- C4: without `force`, a request inside the 30-minute window serves the
cache (normalized on read by the App Router route, as-is by the legacy
route), tagged `cached: true`, and performs no upstream fetch; with
`force = true` both routes always run the fetch path. -/
theorem freshness_window_and_force
    (hum : Int → Int → Int) (fol : Option String → Option String)
    (now : Int) (ts : String) (v w : Bool) (up : Upstream) (st : CacheState)
    (e : Entry)
    (hc : st.cached = some e)
    (hfresh : now - st.cachedAt < CACHE_MIN_TTL_MS) :
    GET1 hum false now ts v w up st =
      ⟨.ok true (normalizeEntry hum e),
       { st with cached := some (normalizeEntry hum e) }, false,
       if entryMetarTruthy e then [saveCacheToFile v w] else []⟩ ∧
    GET2 hum fol false now ts v w up st = ⟨.ok true e, st, false, []⟩ ∧
    (GET1 hum true now ts v w up st).fetched = true ∧
    (GET2 hum fol true now ts v w up st).fetched = true := by
  obtain ⟨c, cm, ca⟩ := st
  cases hc
  refine ⟨?_, ?_, ?_, ?_⟩
  · simp only [GET1, if_pos hfresh]
  · simp only [GET2, if_pos hfresh]
  · exact fetchPath1_fetched hum now ts v w up ⟨some e, cm, ca⟩
  · exact fetchPath2_fetched hum fol now ts v w up ⟨some e, cm, ca⟩

theorem freshness_window_and_force_witness :
    st0.cached = some e0 ∧ ((5 : Int) - st0.cachedAt < CACHE_MIN_TTL_MS) ∧
    GET2 humWire fol0 false 5 "12:00" false true (.ok m1) st0 =
      ⟨.ok true e0, st0, false, []⟩ ∧
    (GET1 humWire true 5 "12:00" false true (.ok m1) st0).fetched = true :=
  ⟨rfl, by decide,
   (freshness_window_and_force humWire fol0 5 "12:00" false true (.ok m1) st0 e0
     rfl (by decide)).2.1,
   (freshness_window_and_force humWire fol0 5 "12:00" false true (.ok m1) st0 e0
     rfl (by decide)).2.2.1⟩

/-- `parseMetar` with its let-binding unfolded. -/
lemma parseMetar_eq (s : String) :
    parseMetar s =
      if trimList s.toList = [] then {} else
      { raw := some (String.mk (trimList s.toList))
        station := stationOf (trimList s.toList)
        obsTime := scanL tryTime none (trimList s.toList)
        wind := scanL tryWind none (trimList s.toList)
        visibility := (scanL tryVis none (trimList s.toList)).map visValue
        clouds := some (scanAllAux tryCloud ((trimList s.toList).length + 1) none
          (trimList s.toList))
        weather :=
          let w := scanAllAux tryWx ((trimList s.toList).length + 1) none
            (trimList s.toList)
          if w = [] then none else some w
        temperatureC := (scanL tryTempDew none (trimList s.toList)).map Prod.fst
        dewPointC := (scanL tryTempDew none (trimList s.toList)).map Prod.snd
        qnh_hpa := scanL tryQ none (trimList s.toList)
        alt_inhg :=
          if (scanL tryQ none (trimList s.toList)).isSome then none
          else scanL tryA none (trimList s.toList) } := rfl

/-- C7: the decoded pressure fields are mutually exclusive, and when both
the `Q####` and `A####` patterns match, the hectopascal reading wins. -/
theorem pressure_mutual_exclusion (s : String) :
    (¬ ((parseMetar s).qnh_hpa.isSome = true ∧ (parseMetar s).alt_inhg.isSome = true)) ∧
    (∀ q : Nat, ∀ a : String,
      scanL tryQ none (trimList s.toList) = some q →
      scanL tryA none (trimList s.toList) = some a →
      (parseMetar s).qnh_hpa = some q ∧ (parseMetar s).alt_inhg = none) := by
  rw [parseMetar_eq]
  by_cases h : trimList s.toList = []
  · rw [if_pos h]
    constructor
    · rintro ⟨h1, -⟩
      simp at h1
    · intro q a hq ha
      rw [h] at hq
      exact absurd hq (by simp [scanL, tryQ])
  · rw [if_neg h]
    constructor
    · rintro ⟨h1, h2⟩
      dsimp only at h1 h2
      rw [if_pos h1] at h2
      simp at h2
    · intro q a hq ha
      dsimp only
      rw [hq]
      simp

theorem pressure_mutual_exclusion_witness :
    scanL tryQ none (trimList "METAR SBRP 111200Z 22/12 Q1013 A2992".toList) =
      some 1013 ∧
    scanL tryA none (trimList "METAR SBRP 111200Z 22/12 Q1013 A2992".toList) =
      some "2992" ∧
    (parseMetar "METAR SBRP 111200Z 22/12 Q1013 A2992").qnh_hpa = some 1013 ∧
    (parseMetar "METAR SBRP 111200Z 22/12 Q1013 A2992").alt_inhg = none := by
  refine ⟨by decide, by decide, ?_⟩
  exact (pressure_mutual_exclusion "METAR SBRP 111200Z 22/12 Q1013 A2992").2
    1013 "2992" (by decide) (by decide)

/-- C8: the decoder is total (the empty/whitespace input yields the
all-absent record, anything else a best-effort record), each field is
computed only by its own token scanner, and a field whose token is not
found is absent without affecting the other fields. -/
theorem decode_total_independent_fields (s : String) :
    (trimList s.toList = [] → parseMetar s = {}) ∧
    (trimList s.toList ≠ [] →
      (parseMetar s).raw = some (String.mk (trimList s.toList)) ∧
      (parseMetar s).station = stationOf (trimList s.toList) ∧
      (parseMetar s).obsTime = scanL tryTime none (trimList s.toList) ∧
      (parseMetar s).wind = scanL tryWind none (trimList s.toList) ∧
      (parseMetar s).visibility = (scanL tryVis none (trimList s.toList)).map visValue ∧
      (parseMetar s).clouds = some (scanAllAux tryCloud
        ((trimList s.toList).length + 1) none (trimList s.toList)) ∧
      (parseMetar s).temperatureC =
        (scanL tryTempDew none (trimList s.toList)).map Prod.fst ∧
      (parseMetar s).dewPointC =
        (scanL tryTempDew none (trimList s.toList)).map Prod.snd) ∧
    (stationOf (trimList s.toList) = none → (parseMetar s).station = none) ∧
    (scanL tryWind none (trimList s.toList) = none → (parseMetar s).wind = none) ∧
    (scanL tryTempDew none (trimList s.toList) = none →
      (parseMetar s).temperatureC = none ∧ (parseMetar s).dewPointC = none) := by
  rw [parseMetar_eq]
  by_cases h : trimList s.toList = []
  · rw [if_pos h]
    exact ⟨fun _ => rfl, fun hn => absurd h hn, fun _ => rfl, fun _ => rfl,
      fun _ => ⟨rfl, rfl⟩⟩
  · rw [if_neg h]
    refine ⟨fun he => absurd he h, fun _ => ⟨rfl, rfl, rfl, rfl, rfl, rfl, rfl, rfl⟩,
      fun hs => ?_, fun hw => ?_, fun htd => ?_⟩
    · dsimp only
      exact hs
    · dsimp only
      exact hw
    · dsimp only
      rw [htd]
      exact ⟨rfl, rfl⟩

theorem decode_total_independent_fields_witness :
    (trimList "   ".toList = []) ∧ parseMetar "   " = {} ∧
    (trimList exMetar.toList ≠ []) ∧
    (parseMetar exMetar).station = stationOf (trimList exMetar.toList) :=
  ⟨by decide, (decode_total_independent_fields "   ").1 (by decide), by decide,
   ((decode_total_independent_fields exMetar).2.1 (by decide)).2.1⟩


lemma GET1_saves_vercel (hum : Int → Int → Int) (f : Bool) (now : Int) (ts : String)
    (w : Bool) (up : Upstream) (st : CacheState) :
    ((GET1 hum f now ts true w up st).saves).all (fun r => r == SaveResult.skipped) =
      true := by
  obtain ⟨c, cm, ca⟩ := st
  have hfp : ∀ st' : CacheState,
      ((fetchPath1 hum now ts true w up st').saves).all
        (fun r => r == SaveResult.skipped) = true := by
    rintro ⟨c', cm', ca'⟩
    cases up with
    | fail => rfl
    | notOk s => rfl
    | ok body => cases c' <;> simp only [fetchPath1] <;> split_ifs <;> rfl
  cases f
  · cases c with
    | none => exact hfp ⟨none, cm, ca⟩
    | some e =>
      by_cases h : now - ca < CACHE_MIN_TTL_MS
      · simp only [GET1, if_pos h]
        split_ifs <;> rfl
      · simp only [GET1, if_neg h]
        exact hfp ⟨some e, cm, ca⟩
  · exact hfp ⟨c, cm, ca⟩

lemma GET2_saves_vercel (hum : Int → Int → Int) (fol : Option String → Option String)
    (f : Bool) (now : Int) (ts : String)
    (w : Bool) (up : Upstream) (st : CacheState) :
    ((GET2 hum fol f now ts true w up st).saves).all (fun r => r == SaveResult.skipped) =
      true := by
  obtain ⟨c, cm, ca⟩ := st
  have hfp : ∀ st' : CacheState,
      ((fetchPath2 hum fol now ts true w up st').saves).all
        (fun r => r == SaveResult.skipped) = true := by
    rintro ⟨c', cm', ca'⟩
    cases up with
    | fail => rfl
    | notOk s => rfl
    | ok body => simp only [fetchPath2]; split_ifs <;> rfl
  cases f
  · cases c with
    | none => exact hfp ⟨none, cm, ca⟩
    | some e =>
      by_cases h : now - ca < CACHE_MIN_TTL_MS
      · simp only [GET2, if_pos h]
        rfl
      · simp only [GET2, if_neg h]
        exact hfp ⟨some e, cm, ca⟩
  · exact hfp ⟨c, cm, ca⟩

/-- C9: the disk-write outcome never influences the response, the new
in-memory state or the fetch decision of either route (a failed write is
only recorded/logged); under the `VERCEL` flag every save is the
deliberate no-op `skipped`, while the operation still produces its normal
result; and `saveCacheToFile` maps a failing write to `failedLogged`
rather than an exception. -/
theorem persistence_best_effort (hum : Int → Int → Int)
    (fol : Option String → Option String) (f : Bool) (now : Int) (ts : String)
    (v : Bool) (up : Upstream) (st : CacheState) (w w' : Bool) :
    (GET1 hum f now ts v w up st).resp = (GET1 hum f now ts v w' up st).resp ∧
    (GET1 hum f now ts v w up st).state = (GET1 hum f now ts v w' up st).state ∧
    (GET1 hum f now ts v w up st).fetched = (GET1 hum f now ts v w' up st).fetched ∧
    (GET2 hum fol f now ts v w up st).resp = (GET2 hum fol f now ts v w' up st).resp ∧
    (GET2 hum fol f now ts v w up st).state = (GET2 hum fol f now ts v w' up st).state ∧
    (GET2 hum fol f now ts v w up st).fetched =
      (GET2 hum fol f now ts v w' up st).fetched ∧
    saveCacheToFile true w = SaveResult.skipped ∧
    saveCacheToFile false false = SaveResult.failedLogged ∧
    ((GET1 hum f now ts true w up st).saves).all (fun r => r == SaveResult.skipped) =
      true ∧
    ((GET2 hum fol f now ts true w up st).saves).all (fun r => r == SaveResult.skipped) =
      true := by
  refine ⟨?_, ?_, ?_, ?_, ?_, ?_, rfl, rfl,
    GET1_saves_vercel hum f now ts w up st, GET2_saves_vercel hum fol f now ts w up st⟩
  · rw [GET1_eq_w hum f now ts v w w' up st]
  · rw [GET1_eq_w hum f now ts v w w' up st]
  · rw [GET1_eq_w hum f now ts v w w' up st]
  · rw [GET2_eq_w hum fol f now ts v w w' up st]
  · rw [GET2_eq_w hum fol f now ts v w w' up st]
  · rw [GET2_eq_w hum fol f now ts v w w' up st]


lemma jsOrStr_truthy (a b : Option String) (h : a ≠ some "") (hs : a.isSome = true) :
    jsOrStr a b = a := by
  cases a with
  | none => cases hs
  | some s =>
    have hne : s ≠ "" := fun he => h (by rw [he])
    simp [jsOrStr, hne]

lemma jsOr_some (a b : Option α) (hs : a.isSome = true) : jsOr a b = a := by
  cases a with
  | none => cases hs
  | some x => rfl

lemma jsOrNat_truthy (a b : Option Nat) (h : a ≠ some 0) (hs : a.isSome = true) :
    jsOrNat a b = a := by
  cases a with
  | none => cases hs
  | some n =>
    have hne : n ≠ 0 := fun he => h (by rw [he])
    simp [jsOrNat, hne]

lemma fillNull_some (a b : Option Int) (hs : a.isSome = true) : fillNull a b = a := by
  cases a with
  | none => cases hs
  | some v => rfl

/-- The fill-only property of one normalization pass: fields the source
never merges are untouched, and every present field whose stored value is
truthy is kept verbatim. -/
def FillOnly (hum : Int → Int → Int) (e : Entry) : Prop :=
  (normalizeEntry hum e).metar = e.metar ∧
  (normalizeEntry hum e).updatedAt = e.updatedAt ∧
  (normalizeEntry hum e).obsTimeLocal = e.obsTimeLocal ∧
  (normalizeEntry hum e).temperatureC = e.temperatureC ∧
  (normalizeEntry hum e).dewPointC = e.dewPointC ∧
  (e.station.isSome = true → (normalizeEntry hum e).station = e.station) ∧
  (e.raw.isSome = true → (normalizeEntry hum e).raw = e.raw) ∧
  (e.obsTime.isSome = true → (normalizeEntry hum e).obsTime = e.obsTime) ∧
  (e.wind.isSome = true → (normalizeEntry hum e).wind = e.wind) ∧
  (e.visibility.isSome = true → (normalizeEntry hum e).visibility = e.visibility) ∧
  (e.clouds.isSome = true → (normalizeEntry hum e).clouds = e.clouds) ∧
  (e.weather.isSome = true → (normalizeEntry hum e).weather = e.weather) ∧
  (e.temperature.isSome = true → (normalizeEntry hum e).temperature = e.temperature) ∧
  (e.dewPoint.isSome = true → (normalizeEntry hum e).dewPoint = e.dewPoint) ∧
  (e.humidity.isSome = true → (normalizeEntry hum e).humidity = e.humidity) ∧
  (e.qnh_hpa.isSome = true → (normalizeEntry hum e).qnh_hpa = e.qnh_hpa) ∧
  (e.alt_inhg.isSome = true → (normalizeEntry hum e).alt_inhg = e.alt_inhg)

/-- C10 amended: normalize-on-read is fill-only for every field whose
stored value is JS-truthy (the `||` merges overwrite a present-but-falsy
value such as an empty string or a zero `qnh_hpa`; the null-checked
`temperature`, `dewPoint` and `humidity` are kept whenever present). -/
theorem normalize_fill_only_for_truthy (hum : Int → Int → Int) (e : Entry)
    (h1 : e.station ≠ some "") (h2 : e.raw ≠ some "") (h3 : e.obsTime ≠ some "")
    (h4 : e.visibility ≠ some "") (h5 : e.qnh_hpa ≠ some 0)
    (h6 : e.alt_inhg ≠ some "") :
    FillOnly hum e := by
  cases hm : e.metar with
  | none =>
    have hN : normalizeEntry hum e = e := by
      rw [normalizeEntry, hm]
    unfold FillOnly
    rw [hN]
    simp
  | some m =>
    by_cases hme : m = ""
    · subst hme
      have hN : normalizeEntry hum e = e := by
        rw [normalizeEntry, hm]
        simp
      unfold FillOnly
      rw [hN]
      simp
    · unfold FillOnly
      rw [normalizeEntry, hm]
      dsimp only
      rw [if_neg hme]
      refine ⟨rfl, rfl, rfl, rfl, rfl, ?_, ?_, ?_, ?_, ?_, ?_, ?_, ?_, ?_, ?_, ?_, ?_⟩
      · intro hs
        exact jsOrStr_truthy _ _ h1 hs
      · intro hs
        rw [jsOrStr_truthy _ _ h2 hs]
        exact jsOrStr_truthy _ _ h2 hs
      · intro hs
        exact jsOrStr_truthy _ _ h3 hs
      · intro hs
        exact jsOr_some _ _ hs
      · intro hs
        exact jsOrStr_truthy _ _ h4 hs
      · intro hs
        exact jsOr_some _ _ hs
      · intro hs
        exact jsOr_some _ _ hs
      · intro hs
        exact fillNull_some _ _ hs
      · intro hs
        exact fillNull_some _ _ hs
      · intro hs
        obtain ⟨x, hx⟩ := Option.isSome_iff_exists.mp hs
        rw [hx]
      · intro hs
        dsimp only
        cases hpq : (parseMetar (extractMetar m)).qnh_hpa with
        | none => rfl
        | some q =>
          dsimp only
          by_cases hq0 : q ≠ 0
          · rw [if_pos hq0]
            exact jsOrNat_truthy _ _ h5 hs
          · rw [if_neg hq0]
      · intro hs
        dsimp only
        cases hpa : (parseMetar (extractMetar m)).alt_inhg with
        | none => rfl
        | some a =>
          dsimp only
          by_cases ha0 : a ≠ ""
          · rw [if_pos ha0]
            exact jsOrStr_truthy _ _ h6 hs
          · rw [if_neg ha0]

/-- An entry whose every field is present and truthy. -/
def eAll : Entry :=
  { metar := some m0, raw := some m0, station := some "SBCF",
    obsTime := some "111200Z", obsTimeLocal := some "09:00",
    wind := some ⟨"120", 5, none⟩, visibility := some "4000 m",
    clouds := some [], weather := some ["RA"], temperatureC := some 20,
    dewPointC := some 10, qnh_hpa := some 1020, alt_inhg := some "2990",
    temperature := some 20, dewPoint := some 10, humidity := some 53,
    updatedAt := some "11:11" }

theorem normalize_fill_only_for_truthy_witness :
    (eAll.station ≠ some "") ∧ (eAll.qnh_hpa ≠ some 0) ∧ FillOnly humWire eAll ∧
    (normalizeEntry humWire eAll).station = eAll.station := by
  have h := normalize_fill_only_for_truthy humWire eAll (by decide) (by decide)
    (by decide) (by decide) (by decide) (by decide)
  exact ⟨by decide, by decide, h, h.2.2.2.2.2.1 rfl⟩

/-- An entry whose `station` is present but holds the falsy empty
string, with a decodable stored report. -/
def eC10 : Entry :=
  { metar := some m0, station := some "", humidity := some 65,
    temperature := some 24, dewPoint := some 18 }

/-- C10 counterexample: normalize-on-read is not fill-only as claimed —
a present (but JS-falsy) `station` value `""` is overwritten by the value
re-decoded from the stored report. -/
theorem normalize_overwrites_falsy_cex :
    eC10.station = some "" ∧ eC10.station.isSome = true ∧
    (normalizeEntry humWire eC10).station = some "SBRP" ∧
    (normalizeEntry humWire eC10).station ≠ eC10.station :=
  ⟨rfl, rfl, rfl, by decide⟩

end Weather
